import Mathlib

/-!
Verification of the SwiftAttend event registration / attendance check-in
application.  The definitions below are a shallow embedding of the
repository's domain layer:

* the localStorage record store and its operations
  (`src/unnamed/part_002`: `registerForEvent`, `checkInAttendee`,
  `isAttendeeCheckedIn`, `deleteRegistration`, `findRegistrationByQR`,
  `findRegistrationByBackupCode`, `getEventStats`, `generateBackupCode`),
* the local auth scheme (`src/unnamed/part_002` top section: `validateEmail`,
  `signIn`),
* the staff scanner flow (`src/src/App.tsx`, `handleScan`),
* the participant listing filter (`src/src/pages/Index.tsx`),
* the hosted-backend listing and backup-code generation
  (`src/unnamed/part_001`: `getEvents` with order-by, `registerForEvent`).

Browser storage is modelled as an explicit `Store` value threaded through the
operations; the nondeterministic inputs of the code (`Date.now()`,
`new Date().toISOString()`, `Math.random()`) are extra parameters.  JavaScript
strings are modelled as Lean `String`s (lists of characters); dates parsed by
`new Date` are modelled by their date-only value as an `Int` day number, which
is exactly the information the code compares after normalising time-of-day.
-/

namespace SwiftAttend

/-- Check-in method, from the `check_in_method` union type
`'qr_scan' | 'backup_code'` of the storage layer. -/
inductive CheckInMethod where
  | qr_scan
  | backup_code
deriving DecidableEq, Repr

/-- An event record, from `interface Event` in `src/unnamed/part_002`.
`event_date` holds the parsed date-only value of the stored date string. -/
structure Event where
  id : String
  name : String
  description : Option String
  event_date : Int
  start_time : String
  end_time : String
  location : String
  max_capacity : Option Nat
  poster_url : Option String
  created_by : String
  created_at : String
deriving DecidableEq, Repr

/-- A registration record, from `interface Registration` in
`src/unnamed/part_002`. -/
structure Registration where
  id : String
  event_id : String
  user_id : String
  user_name : String
  user_email : String
  qr_code_data : String
  backup_code : String
  created_at : String
deriving DecidableEq, Repr

/-- An attendance record, from `interface Attendance` in
`src/unnamed/part_002`. -/
structure Attendance where
  id : String
  registration_id : String
  event_id : String
  user_id : String
  checked_in_at : String
  check_in_method : CheckInMethod
  staff_id : String
deriving DecidableEq, Repr

/-- The localStorage record store: the three lists kept under the
`swiftattend_events`, `swiftattend_registrations` and
`swiftattend_attendances` keys. -/
structure Store where
  events : List Event
  registrations : List Registration
  attendances : List Attendance
deriving DecidableEq, Repr

/-- JavaScript `String.prototype.toUpperCase()` on the character data. -/
def toUpperCase (s : String) : String :=
  ⟨s.data.map Char.toUpper⟩

/-- The alphabet of `generateBackupCode`,
`'ABCDEFGHIJKLMNOPQRSTUVWXYZ0123456789'` (`src/unnamed/part_002` line 148). -/
def backupChars : List Char :=
  "ABCDEFGHIJKLMNOPQRSTUVWXYZ0123456789".toList

/-- `generateBackupCode` (`src/unnamed/part_002` lines 147-154): eight
characters picked from `backupChars` at the indices
`Math.floor(Math.random() * chars.length)`; the random draws are the
parameter `rnd`, each a value in `[0, 36)`. -/
def generateBackupCode (rnd : Nat → Fin 36) : List Char :=
  (List.range 8).map (fun i =>
    backupChars.get (Fin.cast (by decide) (rnd i)))

/-- `generateQRCodeData` (`src/unnamed/part_002` lines 157-159). -/
def generateQRCodeData (eventId userId registrationId nowMs : String) : String :=
  "SWIFTATTEND_" ++ eventId ++ "_" ++ userId ++ "_" ++ registrationId ++ "_" ++ nowMs

/-- `getEvents` of the localStorage variant (`src/unnamed/part_002`
lines 176-179): the stored list, in stored order. -/
def getEvents (s : Store) : List Event :=
  s.events

/-- `getRegistrations` (`src/unnamed/part_002` lines 217-220). -/
def getRegistrations (s : Store) : List Registration :=
  s.registrations

/-- `getAttendances` (`src/unnamed/part_002` lines 341-344). -/
def getAttendances (s : Store) : List Attendance :=
  s.attendances

/-- `registerForEvent` of the localStorage variant (`src/unnamed/part_002`
lines 187-215).  The fresh registration id, the random draws for the backup
code and the two clock reads are parameters; a thrown `Error` is an
`Except.error` carrying the message, and then the store is untouched. -/
def registerForEvent (eventId userId userName userEmail : String)
    (freshId : String) (rnd : Nat → Fin 36) (nowMs nowIso : String)
    (s : Store) : Except String Registration × Store :=
  let registration : Registration :=
    { id := freshId
      event_id := eventId
      user_id := userId
      user_name := userName
      user_email := userEmail
      qr_code_data := generateQRCodeData eventId userId freshId nowMs
      backup_code := ⟨generateBackupCode rnd⟩
      created_at := nowIso }
  match (getRegistrations s).find?
      (fun reg => reg.event_id == eventId && reg.user_id == userId) with
  | some _ => (.error "Already registered for this event", s)
  | none =>
      (.ok registration,
        { s with registrations := s.registrations ++ [registration] })

/-- `getEventRegistrations` (`src/unnamed/part_002` lines 222-225). -/
def getEventRegistrations (eventId : String) (s : Store) : List Registration :=
  (getRegistrations s).filter (fun reg => reg.event_id == eventId)

/-- `deleteRegistration` (`src/unnamed/part_002` lines 233-249). -/
def deleteRegistration (registrationId : String) (s : Store) : Bool × Store :=
  let filteredRegistrations :=
    s.registrations.filter (fun reg => reg.id != registrationId)
  if filteredRegistrations.length == s.registrations.length then
    (false, s)
  else
    (true,
      { s with
        registrations := filteredRegistrations
        attendances :=
          s.attendances.filter (fun att => att.registration_id != registrationId) })

/-- `findRegistrationByQR` (`src/unnamed/part_002` lines 302-305). -/
def findRegistrationByQR (qrData : String) (s : Store) : Option Registration :=
  (getRegistrations s).find? (fun reg => reg.qr_code_data == qrData)

/-- `findRegistrationByBackupCode` (`src/unnamed/part_002` lines 307-310):
compares each stored `backup_code` with the uppercased input. -/
def findRegistrationByBackupCode (backupCode : String) (s : Store) :
    Option Registration :=
  (getRegistrations s).find? (fun reg => reg.backup_code == toUpperCase backupCode)

/-- `isAttendeeCheckedIn` (`src/unnamed/part_002` lines 351-354). -/
def isAttendeeCheckedIn (registrationId : String) (s : Store) : Bool :=
  (getAttendances s).any (fun att => att.registration_id == registrationId)

/-- `checkInAttendee` (`src/unnamed/part_002` lines 313-339); fresh id and
clock read are parameters, a thrown `Error` is an `Except.error` leaving the
store untouched. -/
def checkInAttendee (registrationId : String) (method : CheckInMethod)
    (staffId : String) (freshId nowIso : String) (s : Store) :
    Except String Attendance × Store :=
  match (getRegistrations s).find? (fun reg => reg.id == registrationId) with
  | none => (.error "Registration not found", s)
  | some registration =>
      if isAttendeeCheckedIn registrationId s then
        (.error "Already checked in", s)
      else
        let attendance : Attendance :=
          { id := freshId
            registration_id := registrationId
            event_id := registration.event_id
            user_id := registration.user_id
            checked_in_at := nowIso
            check_in_method := method
            staff_id := staffId }
        (.ok attendance, { s with attendances := s.attendances ++ [attendance] })

/-- `getEventAttendances` (`src/unnamed/part_002` lines 346-349). -/
def getEventAttendances (eventId : String) (s : Store) : List Attendance :=
  (getAttendances s).filter (fun att => att.event_id == eventId)

/-- Result record of `getEventStats`; the JavaScript number arithmetic of the
attendance rate is modelled over `ℚ`. -/
structure EventStats where
  totalRegistrations : Nat
  totalAttendances : Nat
  attendanceRate : ℚ
deriving DecidableEq, Repr

/-- `getEventStats` (`src/unnamed/part_002` lines 357-366). -/
def getEventStats (eventId : String) (s : Store) : EventStats :=
  let registrations := getEventRegistrations eventId s
  let attendances := getEventAttendances eventId s
  { totalRegistrations := registrations.length
    totalAttendances := attendances.length
    attendanceRate :=
      if registrations.length > 0 then
        ((attendances.length : ℚ) / (registrations.length : ℚ)) * 100
      else 0 }

/-- Outcome message shown by the scanner page: the `message` state of
`Scanner` in `src/src/App.tsx` (`{ type: 'success' | 'error', text }`). -/
inductive ScanMessage where
  | success (text : String)
  | error (text : String)
deriving DecidableEq, Repr

/-- JavaScript `String.prototype.trim()`: drop whitespace from both ends of
the character data. -/
def jsTrim (s : String) : String :=
  ⟨((s.data.dropWhile Char.isWhitespace).reverse.dropWhile Char.isWhitespace).reverse⟩

/-- The code-resolution step of `handleScan` (`src/src/App.tsx`
lines 646-653): look up by QR payload first, and only when that finds
nothing look up by backup code with the uppercased input. -/
def resolveScanCode (code : String) (s : Store) : Option Registration :=
  match findRegistrationByQR code s with
  | some registration => some registration
  | none => findRegistrationByBackupCode (toUpperCase code) s

/-- `handleScan` of the staff scanner (`src/src/App.tsx` lines 637-690):
guard on a selected event and nonempty trimmed input, resolve the code,
check the event, check for an existing attendance, then call
`checkInAttendee`.  Returns the message set for the UI and the store after
the attempt. -/
def handleScan (scanInput selectedEventId staffId : String)
    (freshId nowIso : String) (s : Store) : ScanMessage × Store :=
  let code := jsTrim scanInput
  if selectedEventId == "" || code == "" then
    (.error "Please select an event and enter QR code or backup code", s)
  else
    match resolveScanCode code s with
    | none => (.error "Invalid QR code or backup code", s)
    | some registration =>
        if registration.event_id != selectedEventId then
          (.error "This registration is not for the selected event", s)
        else if isAttendeeCheckedIn registration.id s then
          (.error (registration.user_name ++ " is already checked in"), s)
        else
          let method :=
            if scanInput.length > 10 then CheckInMethod.qr_scan
            else CheckInMethod.backup_code
          match checkInAttendee registration.id method staffId freshId nowIso s with
          | (.ok _, s') =>
              (.success ("✅ " ++ registration.user_name ++ " checked in successfully!"), s')
          | (.error _, s') => (.error "Failed to check in attendee", s')

/-- The participant-facing listing filter of `Index`
(`src/src/pages/Index.tsx` lines 24-42): keep the events whose parsed date
is `>=` today, where `today` has its time-of-day zeroed out.  `today` is the
date-only value of the current day. -/
def upcomingEvents (today : Int) (s : Store) : List Event :=
  (getEvents s).filter (fun event => decide (today ≤ event.event_date))

/-- Date order on events, the key of the hosted-backend listing's
`order('event_date', { ascending: true })`. -/
def dateLE (a b : Event) : Prop :=
  a.event_date ≤ b.event_date

instance : DecidableRel dateLE := fun a b =>
  inferInstanceAs (Decidable (a.event_date ≤ b.event_date))

instance : IsTotal Event dateLE :=
  ⟨fun a b => Int.le_total a.event_date b.event_date⟩

instance : IsTrans Event dateLE :=
  ⟨fun _ _ _ h₁ h₂ => le_trans h₁ h₂⟩

/-- `getEvents` of the hosted-backend variant (`src/unnamed/part_001`
lines 315-320): the stored event rows returned ordered by `event_date`
ascending; the database order-by is modelled as a stable sort of the rows. -/
def getEventsRemote (rows : List Event) : List Event :=
  rows.insertionSort dateLE

/-- Backup-code generation of the hosted-backend `registerForEvent`
(`src/unnamed/part_001` lines 330-344):
`Math.random().toString(36).substr(2, 8).toUpperCase()`.  The parameter is
the base-36 fractional digit string produced by `toString(36)` after the
leading `"0."`; `substr(2, 8)` keeps at most its first eight characters. -/
def backendBackupCode (fracDigits : List Char) : List Char :=
  (fracDigits.take 8).map Char.toUpper

/-- User roles of the local auth scheme (`src/unnamed/part_002` line 6). -/
inductive Role where
  | admin
  | staff
  | participant
deriving DecidableEq, Repr

/-- `ADMIN_PASSWORD` (`src/unnamed/part_002` line 12). -/
def ADMIN_PASSWORD : String := "14567"

/-- `STAFF_PASSWORD` (`src/unnamed/part_002` line 13). -/
def STAFF_PASSWORD : String := "14567"

/-- The fixed organisational domain suffix `'@nmamit.in'` as characters. -/
def domainSuffix : List Char :=
  ['@', 'n', 'm', 'a', 'm', 'i', 't', '.', 'i', 'n']

/-- `validateEmail` (`src/unnamed/part_002` lines 16-30), over the email's
character data: `some` carries the error of the first failed check, `none`
means valid. -/
def validateEmail (email : List Char) : Option String :=
  if email = [] then
    some "Email is required"
  else if !(email.elem '@') then
    some "Please enter a valid email address"
  else if !(domainSuffix.isSuffixOf email) then
    some "Email must end with @nmamit.in"
  else
    none

/-- A stored user of the local auth scheme (`interface User` in
`src/unnamed/part_002`). -/
structure AuthUser where
  id : String
  email : List Char
  full_name : List Char
  role : Role
  student_id : Option String
  created_at : String
deriving DecidableEq, Repr

/-- `email.split('@')[0]`: the characters before the first `'@'`. -/
def emailLocalPart (email : List Char) : List Char :=
  email.takeWhile (fun c => c ≠ '@')

/-- `signIn` (`src/unnamed/part_002` lines 46-81).  `fullName = []` models a
missing or empty name (both are falsy in the source); the generated user id
and the clock read are parameters.  A failure is the returned
`{ success: false, error }`. -/
def signIn (email : List Char) (password : String) (role : Role)
    (fullName : List Char) (studentId : Option String)
    (freshId nowIso : String) : Except String AuthUser :=
  match validateEmail email with
  | some err => .error err
  | none =>
      if role = Role.admin ∧ password ≠ ADMIN_PASSWORD then
        .error "Invalid admin password. Contact administrator for access."
      else if role = Role.staff ∧ password ≠ STAFF_PASSWORD then
        .error "Invalid staff password. Contact administrator for access."
      else if role = Role.participant ∧ fullName = [] then
        .error "Full name is required for participants."
      else
        .ok { id := freshId
              email := email
              full_name := if fullName = [] then emailLocalPart email else fullName
              role := role
              student_id := studentId
              created_at := nowIso }

/-- The `swiftattend_user` localStorage slot around `signIn`: the item is
overwritten only on success (`src/unnamed/part_002` line 78); on failure the
function returns before any write. -/
def signInStore (email : List Char) (password : String) (role : Role)
    (fullName : List Char) (studentId : Option String)
    (freshId nowIso : String) (prev : Option AuthUser) :
    Except String AuthUser × Option AuthUser :=
  match signIn email password role fullName studentId freshId nowIso with
  | .ok user => (.ok user, some user)
  | .error err => (.error err, prev)

/-- Whether a result is a success: the `success: true / false` flag of the
result objects returned by the source. -/
def isOk {ε α : Type} : Except ε α → Bool
  | .ok _ => true
  | .error _ => false

/-- The duplicate-check-in invariant: at most one attendance record per
registration id. -/
def atMostOneAttendance (s : Store) : Prop :=
  ∀ rid : String,
    ((getAttendances s).filter (fun att => att.registration_id == rid)).length ≤ 1

/-- A sample event, used to evaluate the theorems on concrete input. -/
def demoEvent : Event :=
  { id := "e1", name := "TechTalk", description := none, event_date := 10
    start_time := "10:00", end_time := "12:00", location := "Hall A"
    max_capacity := none, poster_url := none, created_by := "admin1"
    created_at := "t0" }

/-- A sample registration for `demoEvent`. -/
def demoReg : Registration :=
  { id := "r1", event_id := "e1", user_id := "u1", user_name := "Alice"
    user_email := "alice@nmamit.in", qr_code_data := "SWIFTATTEND_e1_u1_r1_t0"
    backup_code := "AB12CD34", created_at := "t0" }

/-- A sample attendance record for `demoReg`. -/
def demoAtt : Attendance :=
  { id := "a1", registration_id := "r1", event_id := "e1", user_id := "u1"
    checked_in_at := "t1", check_in_method := .qr_scan, staff_id := "s1" }

/-- A sample store in which `demoReg` is already checked in. -/
def demoStore : Store :=
  { events := [demoEvent], registrations := [demoReg], attendances := [demoAtt] }

/-- A sample store with no attendance records. -/
def demoStoreFresh : Store :=
  { events := [demoEvent], registrations := [demoReg], attendances := [] }

/-- A second sample event, dated before `demoEvent`. -/
def demoEventEarly : Event :=
  { id := "e2", name := "Workshop", description := none, event_date := 3
    start_time := "09:00", end_time := "11:00", location := "Hall B"
    max_capacity := none, poster_url := none, created_by := "admin1"
    created_at := "t0" }

/-- A store whose events are stored out of date order: the later event was
created first. -/
def demoStoreUnsorted : Store :=
  { events := [demoEvent, demoEventEarly], registrations := [], attendances := [] }

/-! Helper lemmas. -/

/-- Uppercasing a character is idempotent. -/
theorem char_toUpper_toUpper (c : Char) : c.toUpper.toUpper = c.toUpper := by
  unfold Char.toUpper
  by_cases h : c.toNat ≥ 97 ∧ c.toNat ≤ 122
  · rw [if_pos h]
    have hv : (c.toNat - 32).isValidChar := Or.inl (by omega)
    have ht : (Char.ofNat (c.toNat - 32)).toNat = c.toNat - 32 := by
      rw [Char.ofNat, dif_pos hv]
      rfl
    rw [if_neg]
    rw [ht]
    omega
  · rw [if_neg h, if_neg h]

/-- Uppercasing a string is idempotent. -/
theorem toUpperCase_idem (s : String) :
    toUpperCase (toUpperCase s) = toUpperCase s := by
  show String.mk ((s.data.map Char.toUpper).map Char.toUpper)
      = String.mk (s.data.map Char.toUpper)
  rw [List.map_map]
  exact congrArg String.mk
    (List.map_congr_left (fun c _ => char_toUpper_toUpper c))

/-- Claim C1: for every Registration, at most one Attendance record exists at
any time.  First, a check-in attempt on a registration that already has an
attendance record fails with the `Already checked in` error and leaves the
store unchanged.  Second, `checkInAttendee` preserves the at-most-one
invariant.  Third, through the scanner flow the failure message reports the
attendee's name and the store is unchanged. -/
theorem duplicate_check_in_rejected :
    (∀ (rid : String) (m : CheckInMethod) (staffId freshId nowIso : String)
        (s : Store),
      (∃ reg ∈ s.registrations, reg.id = rid) →
      isAttendeeCheckedIn rid s = true →
      checkInAttendee rid m staffId freshId nowIso s =
        (.error "Already checked in", s))
    ∧
    (∀ (rid : String) (m : CheckInMethod) (staffId freshId nowIso : String)
        (s : Store),
      atMostOneAttendance s →
      atMostOneAttendance (checkInAttendee rid m staffId freshId nowIso s).2)
    ∧
    (∀ (scanInput selectedEventId staffId freshId nowIso : String) (s : Store)
        (r : Registration),
      selectedEventId ≠ "" →
      jsTrim scanInput ≠ "" →
      resolveScanCode (jsTrim scanInput) s = some r →
      r.event_id = selectedEventId →
      isAttendeeCheckedIn r.id s = true →
      handleScan scanInput selectedEventId staffId freshId nowIso s =
        (.error (r.user_name ++ " is already checked in"), s)) := by
  refine ⟨?_, ?_, ?_⟩
  · rintro rid m staffId freshId nowIso s ⟨reg, hmem, hid⟩ hchk
    have hfind : ((getRegistrations s).find? (fun reg => reg.id == rid)).isSome :=
      List.find?_isSome.mpr ⟨reg, hmem, by simp [hid]⟩
    obtain ⟨reg', hreg'⟩ := Option.isSome_iff_exists.mp hfind
    simp [checkInAttendee, hreg', hchk]
  · intro rid m staffId freshId nowIso s hinv
    unfold checkInAttendee
    cases hfind : (getRegistrations s).find? (fun reg => reg.id == rid) with
    | none => exact hinv
    | some reg =>
      by_cases hchk : isAttendeeCheckedIn rid s
      · simp only [hchk, if_true]
        exact hinv
      · simp only [hchk, if_false, Bool.false_eq_true]
        intro rid'
        simp only [getAttendances, List.filter_append, List.length_append]
        by_cases he : rid = rid'
        · subst he
          have hfalse : s.attendances.any (fun att => att.registration_id == rid) = false := by
            simpa [isAttendeeCheckedIn, getAttendances] using hchk
          have h0 : s.attendances.filter (fun a => a.registration_id == rid) = [] := by
            rw [List.filter_eq_nil_iff]
            intro a ha
            simpa using List.any_eq_false.mp hfalse a ha
          rw [h0]
          simp
        · have h1 := hinv rid'
          simp only [getAttendances] at h1
          have hbe : (rid == rid') = false := beq_eq_false_iff_ne.mpr he
          have h2 : (List.filter (fun a => a.registration_id == rid')
              [({ id := freshId, registration_id := rid, event_id := reg.event_id,
                  user_id := reg.user_id, checked_in_at := nowIso,
                  check_in_method := m, staff_id := staffId } : Attendance)]).length = 0 := by
            simp [List.filter, hbe]
          omega
  · intro scanInput sel staffId freshId nowIso s r hsel hcode hres hev hchk
    have h1 : (sel == "") = false := beq_eq_false_iff_ne.mpr hsel
    have h2 : (jsTrim scanInput == "") = false := beq_eq_false_iff_ne.mpr hcode
    simp [handleScan, h1, h2, hres, hev, hchk]

/-- Checking in the already-checked-in sample registration fails with
`Already checked in` and leaves the store as it was. -/
theorem duplicate_check_in_rejected_witness :
    isAttendeeCheckedIn "r1" demoStore = true ∧
    checkInAttendee "r1" .backup_code "s1" "a2" "t2" demoStore =
      (.error "Already checked in", demoStore) :=
  ⟨by decide,
    duplicate_check_in_rejected.1 "r1" .backup_code "s1" "a2" "t2" demoStore
      ⟨demoReg, by decide, rfl⟩ (by decide)⟩

/-- Claim C2: registering a second time for the same (event, user) pair fails
with the `Already registered for this event` conflict error and leaves the
stored registrations unchanged; in particular a registration directly after a
successful one for the same pair fails that way. -/
theorem duplicate_registration_rejected :
    (∀ (eventId userId userName userEmail freshId : String) (rnd : Nat → Fin 36)
        (nowMs nowIso : String) (s : Store),
      (∃ reg ∈ s.registrations, reg.event_id = eventId ∧ reg.user_id = userId) →
      registerForEvent eventId userId userName userEmail freshId rnd nowMs nowIso s =
        (.error "Already registered for this event", s))
    ∧
    (∀ (eventId userId userName userEmail freshId : String) (rnd : Nat → Fin 36)
        (nowMs nowIso : String) (s : Store) (r : Registration) (s' : Store),
      registerForEvent eventId userId userName userEmail freshId rnd nowMs nowIso s =
        (.ok r, s') →
      ∀ (userName' userEmail' freshId' : String) (rnd' : Nat → Fin 36)
        (nowMs' nowIso' : String),
      registerForEvent eventId userId userName' userEmail' freshId' rnd' nowMs' nowIso' s' =
        (.error "Already registered for this event", s')) := by
  have key : ∀ (eventId userId userName userEmail freshId : String)
      (rnd : Nat → Fin 36) (nowMs nowIso : String) (s : Store),
      (∃ reg ∈ s.registrations, reg.event_id = eventId ∧ reg.user_id = userId) →
      registerForEvent eventId userId userName userEmail freshId rnd nowMs nowIso s =
        (.error "Already registered for this event", s) := by
    rintro eventId userId userName userEmail freshId rnd nowMs nowIso s
      ⟨reg, hmem, he, hu⟩
    have hfind : ((getRegistrations s).find?
        (fun reg => reg.event_id == eventId && reg.user_id == userId)).isSome :=
      List.find?_isSome.mpr ⟨reg, hmem, by simp [he, hu]⟩
    obtain ⟨reg', hreg'⟩ := Option.isSome_iff_exists.mp hfind
    simp [registerForEvent, hreg']
  refine ⟨key, ?_⟩
  intro eventId userId userName userEmail freshId rnd nowMs nowIso s r s' h
  intro userName' userEmail' freshId' rnd' nowMs' nowIso'
  apply key
  unfold registerForEvent at h
  cases hfind : (getRegistrations s).find?
      (fun reg => reg.event_id == eventId && reg.user_id == userId) with
  | some reg => simp [hfind] at h
  | none =>
    simp only [hfind, Prod.mk.injEq] at h
    obtain ⟨-, hs'⟩ := h
    refine ⟨{ id := freshId, event_id := eventId, user_id := userId,
              user_name := userName, user_email := userEmail,
              qr_code_data := generateQRCodeData eventId userId freshId nowMs,
              backup_code := ⟨generateBackupCode rnd⟩, created_at := nowIso },
            ?_, rfl, rfl⟩
    rw [← hs']
    exact List.mem_append_right _ (by simp)

/-- Registering the already-registered sample (event, user) pair fails with
the conflict error and leaves the store as it was. -/
theorem duplicate_registration_rejected_witness :
    demoReg ∈ demoStore.registrations ∧
    registerForEvent "e1" "u1" "Bob" "bob@nmamit.in" "r9" (fun _ => (0 : Fin 36))
        "123" "t9" demoStore =
      (.error "Already registered for this event", demoStore) :=
  ⟨by decide,
    duplicate_registration_rejected.1 "e1" "u1" "Bob" "bob@nmamit.in" "r9" _ "123" "t9"
      demoStore ⟨demoReg, by decide, rfl, rfl⟩⟩

/-- Claim C3: the check-in flow resolves an input code by looking up a
registration by QR payload first; only when that finds nothing does it look
up by backup code, comparing the stored code with the uppercased input (so
the input's letter case does not matter); when neither lookup matches, the
scan fails with the invalid-code error and the store, in particular the set
of attendance records, is unchanged. -/
theorem scan_code_resolution :
    (∀ (code : String) (s : Store) (r : Registration),
      findRegistrationByQR code s = some r → resolveScanCode code s = some r)
    ∧
    (∀ (code : String) (s : Store),
      findRegistrationByQR code s = none →
      resolveScanCode code s = findRegistrationByBackupCode (toUpperCase code) s)
    ∧
    (∀ (code : String) (s : Store),
      findRegistrationByBackupCode (toUpperCase code) s =
        findRegistrationByBackupCode code s)
    ∧
    (∀ (scanInput selectedEventId staffId freshId nowIso : String) (s : Store),
      selectedEventId ≠ "" →
      jsTrim scanInput ≠ "" →
      resolveScanCode (jsTrim scanInput) s = none →
      handleScan scanInput selectedEventId staffId freshId nowIso s =
        (.error "Invalid QR code or backup code", s)) := by
  refine ⟨?_, ?_, ?_, ?_⟩
  · intro code s r h
    simp [resolveScanCode, h]
  · intro code s h
    simp [resolveScanCode, h]
  · intro code s
    unfold findRegistrationByBackupCode
    rw [toUpperCase_idem]
  · intro scanInput sel staffId freshId nowIso s hsel hcode hres
    have h1 : (sel == "") = false := beq_eq_false_iff_ne.mpr hsel
    have h2 : (jsTrim scanInput == "") = false := beq_eq_false_iff_ne.mpr hcode
    simp [handleScan, h1, h2, hres]

/-- Scanning a code that matches no stored QR payload and no stored backup
code fails with the invalid-code error and leaves the sample store as it
was. -/
theorem scan_code_resolution_witness :
    resolveScanCode (jsTrim "nosuchcode") demoStore = none ∧
    handleScan "nosuchcode" "e1" "s1" "a2" "t2" demoStore =
      (.error "Invalid QR code or backup code", demoStore) :=
  ⟨by decide,
    scan_code_resolution.2.2.2 "nosuchcode" "e1" "s1" "a2" "t2" demoStore
      (by decide) (by decide) (by decide)⟩

/-- Claim C4: when the scanned code matches a registration whose event is
not the selected event, the check-in fails with the wrong-event error and
the store, in particular the set of attendance records, is unchanged. -/
theorem wrong_event_check_in_rejected :
    ∀ (scanInput selectedEventId staffId freshId nowIso : String) (s : Store)
      (r : Registration),
    selectedEventId ≠ "" →
    jsTrim scanInput ≠ "" →
    resolveScanCode (jsTrim scanInput) s = some r →
    r.event_id ≠ selectedEventId →
    handleScan scanInput selectedEventId staffId freshId nowIso s =
      (.error "This registration is not for the selected event", s) := by
  intro scanInput sel staffId freshId nowIso s r hsel hcode hres hev
  have h1 : (sel == "") = false := beq_eq_false_iff_ne.mpr hsel
  have h2 : (jsTrim scanInput == "") = false := beq_eq_false_iff_ne.mpr hcode
  have h3 : (r.event_id != sel) = true := by simp [hev]
  simp [handleScan, h1, h2, hres, h3]

/-- Scanning the sample registration's QR code against a different event
fails with the wrong-event error and leaves the store as it was. -/
theorem wrong_event_check_in_rejected_witness :
    resolveScanCode (jsTrim "SWIFTATTEND_e1_u1_r1_t0") demoStore = some demoReg ∧
    handleScan "SWIFTATTEND_e1_u1_r1_t0" "e2" "s1" "a2" "t2" demoStore =
      (.error "This registration is not for the selected event", demoStore) :=
  ⟨by decide,
    wrong_event_check_in_rejected "SWIFTATTEND_e1_u1_r1_t0" "e2" "s1" "a2" "t2"
      demoStore demoReg (by decide) (by decide) (by decide) (by decide)⟩

/-- Claim C5: deleting a stored registration succeeds, removes exactly the
attendance records referencing it, removes exactly the registrations with
that id, and leaves the events untouched. -/
theorem delete_registration_cascades :
    ∀ (rid : String) (s : Store),
    (∃ reg ∈ s.registrations, reg.id = rid) →
    (deleteRegistration rid s).1 = true ∧
    (deleteRegistration rid s).2.events = s.events ∧
    (∀ a : Attendance,
      a ∈ (deleteRegistration rid s).2.attendances ↔
        a ∈ s.attendances ∧ a.registration_id ≠ rid) ∧
    (∀ r : Registration,
      r ∈ (deleteRegistration rid s).2.registrations ↔
        r ∈ s.registrations ∧ r.id ≠ rid) := by
  rintro rid s ⟨reg, hmem, hid⟩
  have hlt : (s.registrations.filter (fun r => r.id != rid)).length
      < s.registrations.length := by
    apply List.length_filter_lt_length_iff_exists.mpr
    exact ⟨reg, hmem, by simp [hid]⟩
  have hne : ((s.registrations.filter (fun r => r.id != rid)).length
      == s.registrations.length) = false :=
    beq_eq_false_iff_ne.mpr (Nat.ne_of_lt hlt)
  refine ⟨?_, ?_, ?_, ?_⟩
  · simp [deleteRegistration, hne]
  · simp [deleteRegistration, hne]
  · intro a
    simp [deleteRegistration, hne, List.mem_filter]
  · intro r
    simp [deleteRegistration, hne, List.mem_filter]

/-- Deleting the sample registration succeeds and removes its attendance
record while keeping the events list. -/
theorem delete_registration_cascades_witness :
    demoReg ∈ demoStore.registrations ∧
    (deleteRegistration "r1" demoStore).1 = true ∧
    ¬ demoAtt ∈ (deleteRegistration "r1" demoStore).2.attendances := by
  have h := delete_registration_cascades "r1" demoStore ⟨demoReg, by decide, rfl⟩
  exact ⟨by decide, h.1, fun hmem => ((h.2.2.1 demoAtt).mp hmem).2 rfl⟩

/-- Claim C6: the participant-facing listing keeps an event exactly when its
date-only value is today or later; an event dated strictly before today is
excluded. -/
theorem participant_listing_date_filter :
    (∀ (today : Int) (s : Store) (e : Event),
      e ∈ upcomingEvents today s ↔ e ∈ getEvents s ∧ today ≤ e.event_date)
    ∧
    (∀ (today : Int) (s : Store) (e : Event),
      e ∈ getEvents s → e.event_date < today → e ∉ upcomingEvents today s) := by
  constructor
  · intro today s e
    simp [upcomingEvents, List.mem_filter]
  · intro today s e _ hlt hup
    have h : today ≤ e.event_date := by
      have := List.mem_filter.mp hup
      simpa using this.2
    omega

/-- With today one day after the sample event's date, the sample event is
excluded from the participant listing. -/
theorem participant_listing_date_filter_witness :
    demoEvent ∈ getEvents demoStore ∧ demoEvent.event_date < 11 ∧
    demoEvent ∉ upcomingEvents 11 demoStore :=
  ⟨by decide, by decide,
    participant_listing_date_filter.2 11 demoStore demoEvent (by decide) (by decide)⟩

/-- Claim C7 counterexample: the localStorage variant's listing is not
sorted by event date — `getEvents` returns the stored order, and on a store
whose events were created out of date order the returned list is unsorted. -/
theorem local_listing_not_sorted :
    ¬ List.Sorted dateLE (getEvents demoStoreUnsorted) := by
  decide

/-- Claim C7 (amended): the hosted-backend listing is ordered by event date
ascending — it is a sorted permutation of the stored rows — while the
localStorage variant's `getEvents` returns the events in stored order,
without sorting. -/
theorem listing_sort_order :
    (∀ rows : List Event,
      List.Sorted dateLE (getEventsRemote rows) ∧
      List.Perm (getEventsRemote rows) rows)
    ∧
    (∀ s : Store, getEvents s = s.events) :=
  ⟨fun rows =>
    ⟨List.sorted_insertionSort dateLE rows, List.perm_insertionSort dateLE rows⟩,
    fun _ => rfl⟩

/-- Claim C8: the localStorage variant's `generateBackupCode` always
produces exactly eight characters, each an uppercase letter or digit; the
hosted-backend variant's `Math.random().toString(36).substr(2, 8)` recipe
does not — when `Math.random()` returns `0.5`, `toString(36)` is `"0.i"`,
and the resulting backup code is the single character `I`. -/
theorem backup_code_length_and_charset :
    (∀ rnd : Nat → Fin 36,
      (generateBackupCode rnd).length = 8 ∧
      ∀ c ∈ generateBackupCode rnd,
        ('A' ≤ c ∧ c ≤ 'Z') ∨ ('0' ≤ c ∧ c ≤ '9'))
    ∧
    (backendBackupCode ['i'] = ['I'] ∧ (backendBackupCode ['i']).length ≠ 8) := by
  refine ⟨?_, by decide, by decide⟩
  intro rnd
  constructor
  · simp [generateBackupCode]
  · intro c hc
    have hall : ∀ c ∈ backupChars, ('A' ≤ c ∧ c ≤ 'Z') ∨ ('0' ≤ c ∧ c ≤ '9') := by
      decide
    simp only [generateBackupCode, List.mem_map] at hc
    obtain ⟨i, -, hco⟩ := hc
    exact hco ▸ hall _ (List.get_mem _ _ _)

/-- A concretely generated local backup code has length eight and stays in
the uppercase-alphanumeric alphabet. -/
theorem backup_code_length_and_charset_witness :
    (generateBackupCode (fun _ => (0 : Fin 36))).length = 8 ∧
    ∀ c ∈ generateBackupCode (fun _ => (0 : Fin 36)),
      ('A' ≤ c ∧ c ≤ 'Z') ∨ ('0' ≤ c ∧ c ≤ '9') :=
  backup_code_length_and_charset.1 (fun _ => (0 : Fin 36))

/-- Claim C10: `getEventStats` is total, reports the exact counts of the
event's registration and attendance records, returns rate `0` when the event
has no registrations, and otherwise a rate `r` with
`r · registrations = attendances · 100`, i.e. `(attendances / registrations) · 100`. -/
theorem event_stats_total_and_safe :
    ∀ (eventId : String) (s : Store),
    (getEventStats eventId s).totalRegistrations =
      (getEventRegistrations eventId s).length ∧
    (getEventStats eventId s).totalAttendances =
      (getEventAttendances eventId s).length ∧
    ((getEventRegistrations eventId s).length = 0 →
      (getEventStats eventId s).attendanceRate = 0) ∧
    (0 < (getEventRegistrations eventId s).length →
      (getEventStats eventId s).attendanceRate *
          ((getEventStats eventId s).totalRegistrations : ℚ) =
        ((getEventStats eventId s).totalAttendances : ℚ) * 100) := by
  intro eventId s
  refine ⟨rfl, rfl, ?_, ?_⟩
  · intro h
    simp [getEventStats, h]
  · intro h
    have hne : ((getEventRegistrations eventId s).length : ℚ) ≠ 0 :=
      Nat.cast_ne_zero.mpr (Nat.pos_iff_ne_zero.mp h)
    have hrate : (getEventStats eventId s).attendanceRate =
        ((getEventAttendances eventId s).length : ℚ) /
          ((getEventRegistrations eventId s).length : ℚ) * 100 := by
      simp [getEventStats, h]
    rw [hrate]
    show _ * ((getEventRegistrations eventId s).length : ℚ) =
      ((getEventAttendances eventId s).length : ℚ) * 100
    field_simp

/-- For an event id with no registrations in the sample store, the stats
report zero registrations and a zero attendance rate. -/
theorem event_stats_total_and_safe_witness :
    (getEventRegistrations "e9" demoStore).length = 0 ∧
    (getEventStats "e9" demoStore).attendanceRate = 0 :=
  ⟨by decide, (event_stats_total_and_safe "e9" demoStore).2.2.1 (by decide)⟩

/-- An email passes `validateEmail` exactly when it ends with the fixed
domain suffix: the suffix itself supplies the nonemptiness and the `'@'`
demanded by the earlier checks. -/
theorem validateEmail_eq_none (email : List Char) :
    validateEmail email = none ↔ domainSuffix.isSuffixOf email = true := by
  constructor
  · intro h
    unfold validateEmail at h
    split_ifs at h with h1 h2 h3
    simpa using h3
  · intro h
    have hsuff : domainSuffix <:+ email := List.isSuffixOf_iff_suffix.mp h
    obtain ⟨t, ht⟩ := hsuff
    have hne : email ≠ [] := by
      intro hnil
      rw [hnil] at ht
      have := List.append_eq_nil.mp ht
      simp [domainSuffix] at this
    have hmem : '@' ∈ email := by
      rw [← ht]
      exact List.mem_append_right t (by simp [domainSuffix])
    unfold validateEmail
    rw [if_neg hne, if_neg (by simp [hmem]), if_neg (by simp [h])]

/-- Claim C9: `signIn` succeeds exactly when the email ends with
`@nmamit.in`, an admin supplies the admin password, a staff member supplies
the staff password, and a participant supplies a nonempty full name; each
violated condition yields its error message, and on failure the stored user
session is left as it was. -/
theorem sign_in_role_gate :
    (∀ (email : List Char) (password : String) (role : Role)
        (fullName : List Char) (studentId : Option String) (freshId nowIso : String),
      isOk (signIn email password role fullName studentId freshId nowIso) = true ↔
        (domainSuffix.isSuffixOf email = true ∧
          (role = Role.admin → password = ADMIN_PASSWORD) ∧
          (role = Role.staff → password = STAFF_PASSWORD) ∧
          (role = Role.participant → fullName ≠ [])))
    ∧
    (∀ (email : List Char) (password : String) (role : Role)
        (fullName : List Char) (studentId : Option String) (freshId nowIso : String),
      email = [] →
      signIn email password role fullName studentId freshId nowIso =
        .error "Email is required")
    ∧
    (∀ (email : List Char) (password : String) (role : Role)
        (fullName : List Char) (studentId : Option String) (freshId nowIso : String),
      email ≠ [] → email.elem '@' = false →
      signIn email password role fullName studentId freshId nowIso =
        .error "Please enter a valid email address")
    ∧
    (∀ (email : List Char) (password : String) (role : Role)
        (fullName : List Char) (studentId : Option String) (freshId nowIso : String),
      email.elem '@' = true → domainSuffix.isSuffixOf email = false →
      signIn email password role fullName studentId freshId nowIso =
        .error "Email must end with @nmamit.in")
    ∧
    (∀ (email : List Char) (password : String)
        (fullName : List Char) (studentId : Option String) (freshId nowIso : String),
      domainSuffix.isSuffixOf email = true → password ≠ ADMIN_PASSWORD →
      signIn email password Role.admin fullName studentId freshId nowIso =
        .error "Invalid admin password. Contact administrator for access.")
    ∧
    (∀ (email : List Char) (password : String)
        (fullName : List Char) (studentId : Option String) (freshId nowIso : String),
      domainSuffix.isSuffixOf email = true → password ≠ STAFF_PASSWORD →
      signIn email password Role.staff fullName studentId freshId nowIso =
        .error "Invalid staff password. Contact administrator for access.")
    ∧
    (∀ (email : List Char) (password : String)
        (studentId : Option String) (freshId nowIso : String),
      domainSuffix.isSuffixOf email = true →
      signIn email password Role.participant [] studentId freshId nowIso =
        .error "Full name is required for participants.")
    ∧
    (∀ (email : List Char) (password : String) (role : Role)
        (fullName : List Char) (studentId : Option String) (freshId nowIso : String)
        (prev : Option AuthUser),
      isOk (signIn email password role fullName studentId freshId nowIso) = false →
      (signInStore email password role fullName studentId freshId nowIso prev).2 = prev) := by
  refine ⟨?_, ?_, ?_, ?_, ?_, ?_, ?_, ?_⟩
  · intro email p role fn sid fid now
    cases hval : validateEmail email with
    | some err =>
      have hns : ¬ domainSuffix.isSuffixOf email = true := by
        intro hsf
        rw [(validateEmail_eq_none email).mpr hsf] at hval
        exact Option.noConfusion hval
      constructor
      · intro hok
        exfalso
        simp [signIn, hval, isOk] at hok
      · rintro ⟨hsf, -, -, -⟩
        exact absurd hsf hns
    | none =>
      have hsf : domainSuffix.isSuffixOf email = true :=
        (validateEmail_eq_none email).mp hval
      unfold signIn
      rw [hval]
      split_ifs with h1 h2 h3 h4
      · exact ⟨fun hok => absurd hok (by simp [isOk]),
          fun ⟨_, ha, _, _⟩ => absurd (ha h1.1) h1.2⟩
      · exact ⟨fun hok => absurd hok (by simp [isOk]),
          fun ⟨_, _, hst, _⟩ => absurd (hst h2.1) h2.2⟩
      · exact ⟨fun hok => absurd hok (by simp [isOk]),
          fun ⟨_, _, _, hp⟩ => absurd h3.2 (hp h3.1)⟩
      · refine ⟨fun _ => ⟨hsf, ?_, ?_, ?_⟩, fun _ => rfl⟩
        · intro hr
          by_contra hp
          exact h1 ⟨hr, hp⟩
        · intro hr
          by_contra hp
          exact h2 ⟨hr, hp⟩
        · intro hr
          exact (h3 ⟨hr, h4⟩).elim
      · refine ⟨fun _ => ⟨hsf, ?_, ?_, ?_⟩, fun _ => rfl⟩
        · intro hr
          by_contra hp
          exact h1 ⟨hr, hp⟩
        · intro hr
          by_contra hp
          exact h2 ⟨hr, hp⟩
        · intro hr
          by_contra hp
          exact h3 ⟨hr, hp⟩
  · intro email p role fn sid fid now h
    subst h
    rfl
  · intro email p role fn sid fid now hne hat
    have hnm : '@' ∉ email := by simpa using hat
    have hv : validateEmail email = some "Please enter a valid email address" := by
      unfold validateEmail
      rw [if_neg hne, if_pos (by simp [hnm])]
    simp [signIn, hv]
  · intro email p role fn sid fid now hat hsf
    have hmem : '@' ∈ email := List.elem_iff.mp hat
    have hne : email ≠ [] := List.ne_nil_of_mem hmem
    have hv : validateEmail email = some "Email must end with @nmamit.in" := by
      unfold validateEmail
      rw [if_neg hne, if_neg (by simp [hmem]), if_pos (by simp [hsf])]
    simp [signIn, hv]
  · intro email p fn sid fid now hsf hp
    have hv : validateEmail email = none := (validateEmail_eq_none email).mpr hsf
    simp [signIn, hv, hp]
  · intro email p fn sid fid now hsf hp
    have hv : validateEmail email = none := (validateEmail_eq_none email).mpr hsf
    simp [signIn, hv, hp]
  · intro email p sid fid now hsf
    have hv : validateEmail email = none := (validateEmail_eq_none email).mpr hsf
    simp [signIn, hv]
  · intro email p role fn sid fid now prev hfail
    cases hsig : signIn email p role fn sid fid now with
    | ok u =>
      rw [hsig] at hfail
      exact absurd hfail (by simp [isOk])
    | error e =>
      simp [signInStore, hsig]

/-- A concrete participant sign-in with an `@nmamit.in` email and a nonempty
name succeeds, and a concrete admin sign-in with a wrong password fails with
the admin-password error. -/
theorem sign_in_role_gate_witness :
    isOk (signIn "alice@nmamit.in".toList "" .participant "Alice".toList none
        "u9" "t9") = true ∧
    signIn "alice@nmamit.in".toList "wrong" .admin "Alice".toList none "u9" "t9" =
      .error "Invalid admin password. Contact administrator for access." :=
  ⟨(sign_in_role_gate.1 "alice@nmamit.in".toList "" .participant "Alice".toList none
      "u9" "t9").mpr (by decide),
    sign_in_role_gate.2.2.2.2.1 "alice@nmamit.in".toList "wrong" "Alice".toList none
      "u9" "t9" (by decide) (by decide)⟩

end SwiftAttend
